import Mathlib

/-!
# ReceiptScan — verification of the capture-to-confirmed-record workflow

Shallow embedding of the ReceiptScan repository:
* `src/types.ts` — the `Receipt` record shape, `AppState`, category/currency tables;
* `src/services/gemini.ts` — `ExtractedReceipt` and `extractReceiptData`;
* `src/App.tsx` — the capture session state machine, the review form handlers
  (`ReviewDetailView`), and the aggregation code in `ReceiptListView`;
* the Express server — the `POST /api/receipts` create handler and the
  `GET /api/receipts` list query over the SQLite `receipts` table.

JavaScript numbers are modelled as rationals (`ℚ`); where NaN can occur
(the result of `parseFloat` on a string that does not parse) a JavaScript
number is modelled as `Option ℚ` with `none` standing for NaN.  Optional /
nullable fields are modelled as `Option` types with `none` standing for
`undefined` or `null`.
-/

namespace ReceiptScan

/-- `Receipt` from `src/types.ts`, extended with the `tax` column present in the
SQLite schema (`tax REAL`, nullable) and read by `App.tsx` via `r.tax`;
`none` models an `undefined`/`null` tax. -/
structure Receipt where
  id : Option Nat
  merchant : String
  date : String
  amount : ℚ
  tax : Option ℚ
  currency : String
  category : String
  image_url : Option String
  created_at : Option String
deriving Repr, DecidableEq

/-- `AppState` from `src/types.ts`: `'SCANNING' | 'REVIEW_DETAIL' | 'LIST'`. -/
inductive AppState where
  | LIST
  | SCANNING
  | REVIEW_DETAIL
deriving Repr, DecidableEq

/-- `ExtractedReceipt` from `src/services/gemini.ts`: all fields required
except `tax?`. -/
structure ExtractedReceipt where
  merchant : String
  date : String
  amount : ℚ
  tax : Option ℚ
  currency : String
  category : String
deriving Repr, DecidableEq

/-! ## Aggregation code of `ReceiptListView` (`src/App.tsx` lines 480-492) -/

/-- `const total = receipts.reduce((acc, r) => acc + r.amount, 0);` -/
def total (receipts : List Receipt) : ℚ :=
  receipts.foldl (fun acc r => acc + r.amount) 0

/-- `const totalTax = receipts.reduce((acc, r) => { if (r.tax !== undefined &&
r.tax !== null) return acc + r.tax; return acc + (r.amount - (r.amount / 1.07)); }, 0);` -/
def totalTax (receipts : List Receipt) : ℚ :=
  receipts.foldl
    (fun acc r =>
      match r.tax with
      | some t => acc + t
      | none => acc + (r.amount - r.amount / (107 / 100)))
    0

/-- `const avg = receipts.length > 0 ? total / receipts.length : 0;` -/
def avg (receipts : List Receipt) : ℚ :=
  if 0 < receipts.length then total receipts / (receipts.length : ℚ) else 0

/-- `const chartData = receipts.slice(0, 5).reverse().map(r => ({ name:
r.merchant, amount: r.amount }));` -/
def chartData (receipts : List Receipt) : List (String × ℚ) :=
  ((receipts.take 5).reverse).map fun r => (r.merchant, r.amount)

/-- Per-record tax, stated as in the spec: `taxFor(r) = r.tax` if present,
else `r.amount − r.amount / 1.07`.  Used to compare the source's `totalTax`
fold against the spec's `Σ taxFor(r)`. -/
def taxFor (r : Receipt) : ℚ :=
  match r.tax with
  | some t => t
  | none => r.amount - r.amount / (107 / 100)

/-- A fold that adds `g r` at each step computes `acc + Σ g`. -/
theorem foldl_add_eq_sum {α : Type} (g : α → ℚ) (f : ℚ → α → ℚ)
    (hf : ∀ a r, f a r = a + g r) :
    ∀ (l : List α) (acc : ℚ), l.foldl f acc = acc + (l.map g).sum := by
  intro l
  induction l with
  | nil => intro acc; simp
  | cons x xs ih =>
    intro acc
    simp only [List.foldl_cons, List.map_cons, List.sum_cons, hf, ih (acc + g x)]
    ring

/-- Sample receipt used in concrete evaluations. -/
def rcpt (m : String) (a : ℚ) (t : Option ℚ) : Receipt :=
  { id := none, merchant := m, date := "2024-03-01", amount := a, tax := t,
    currency := "USD", category := "Other", image_url := none, created_at := none }

/-- **C1.** For every record set, `totalTax` (the source's tax estimate)
equals the sum over all records of `taxFor(r)`, where `taxFor(r) = r.tax`
when the tax field is present and `r.amount − r.amount / 1.07` when it is
absent. -/
theorem totalTax_eq_sum_taxFor (receipts : List Receipt) :
    totalTax receipts = (receipts.map taxFor).sum := by
  have h := foldl_add_eq_sum taxFor
    (fun acc r =>
      match r.tax with
      | some t => acc + t
      | none => acc + (r.amount - r.amount / (107 / 100)))
    (by
      intro a r
      cases hr : r.tax with
      | none => simp [taxFor, hr]
      | some t => simp [taxFor, hr])
    receipts 0
  simpa [totalTax] using h

/-- **C10.** For every record set, `avg` equals `total` divided by the number
of records (with the empty set yielding `0`, no division-by-zero fault), and
`avg [{amount:10}, {amount:20}] = 15`. -/
theorem avg_spec (receipts : List Receipt) :
    avg receipts = total receipts / (receipts.length : ℚ) ∧
    avg ([] : List Receipt) = 0 ∧
    avg [rcpt "A" 10 none, rcpt "B" 20 none] = 15 := by
  refine ⟨?_, by simp [avg], by norm_num [avg, total, List.foldl, rcpt]⟩
  cases receipts with
  | nil => simp [avg, total]
  | cons x xs => simp [avg]

/-! ## The review form (`ReviewDetailView`, `src/App.tsx` lines 326-476) -/

/-- The review form state.  `ReviewDetailView`'s `formData` has TypeScript
type `ExtractedReceipt`, but at runtime its `amount` can become NaN through
`parseFloat`, so `amount` is modelled as `Option ℚ` with `none` = NaN.
`tax` is `Option ℚ` because the field may be absent. -/
structure FormState where
  merchant : String
  date : String
  amount : Option ℚ
  tax : Option ℚ
  currency : String
  category : String
deriving Repr, DecidableEq

/-- View an extraction result as form state (its numbers are real numbers,
never NaN, since they come from JSON). -/
def toForm (x : ExtractedReceipt) : FormState :=
  { merchant := x.merchant, date := x.date, amount := some x.amount,
    tax := x.tax, currency := x.currency, category := x.category }

/-- The default form used when extraction returned null (`App.tsx` lines
327-334): merchant `''`, today's date, amount 0, tax 0, currency `'INR'`,
category `'Other'`. -/
def defaultForm (today : String) : FormState :=
  { merchant := "", date := today, amount := some 0, tax := some 0,
    currency := "INR", category := "Other" }

/-- `useState<ExtractedReceipt>(initialData || { ... })`: the form is seeded
from the extraction result when non-null, else from the defaults. -/
def seedForm (today : String) : Option ExtractedReceipt → FormState
  | some x => toForm x
  | none => defaultForm today

/-- The record the Confirm button hands to `saveReceipt` — the client-side
create payload, before JSON serialisation.  `none` models an absent field
(the spread of a tax-less form leaves no `tax` key) or a NaN amount (which
serialises as JSON `null`). -/
structure CreateBody where
  merchant : Option String
  date : Option String
  amount : Option ℚ
  tax : Option ℚ
  currency : Option String
  category : Option String
  image_url : Option String
deriving Repr, DecidableEq

/-- The Confirm button (`App.tsx` line 466):
`onConfirm({ ...formData, image_url: image })` — spread the form and attach
the captured image. -/
def finalize (f : FormState) (image : String) : CreateBody :=
  { merchant := some f.merchant, date := some f.date, amount := f.amount,
    tax := f.tax, currency := some f.currency, category := some f.category,
    image_url := some image }

/-- **C7.** Seeding the review form from a non-null extraction result `x` and
confirming without edits produces a record whose merchant, date, amount, tax,
currency and category equal those of `x` unchanged and whose `image_url`
equals the captured image. -/
theorem finalize_seedForm_roundtrip (today image : String) (x : ExtractedReceipt) :
    finalize (seedForm today (some x)) image =
      { merchant := some x.merchant, date := some x.date, amount := some x.amount,
        tax := x.tax, currency := some x.currency, category := some x.category,
        image_url := some image } := rfl

/-! ## Chart projection (C6) -/

/-- **C6.** For at least 5 records, `chartData` has exactly 5 entries and its
entry at position `i` is the projection of the input record at position
`4 − i` (so output position 0 is input position 4); for fewer than 5 records
it is the whole input reversed and projected. -/
theorem chartData_spec (receipts : List Receipt) :
    (5 ≤ receipts.length →
      (chartData receipts).length = 5 ∧
      ∀ i, i < 5 →
        (chartData receipts)[i]? =
          (receipts[4 - i]?).map fun r => (r.merchant, r.amount)) ∧
    (receipts.length < 5 →
      chartData receipts = receipts.reverse.map fun r => (r.merchant, r.amount)) := by
  constructor
  · intro h5
    have hlen : (receipts.take 5).length = 5 := by
      simp [List.length_take, Nat.min_eq_left h5]
    constructor
    · simp [chartData]
      omega
    · intro i hi
      have hrev : ((receipts.take 5).reverse)[i]? = (receipts.take 5)[4 - i]? := by
        rw [List.getElem?_reverse (by omega), hlen]
      rw [chartData, List.getElem?_map, hrev, List.getElem?_take_of_lt (by omega)]
  · intro hlt
    rw [chartData, List.take_of_length_le (by omega)]

/-- Six sample records, newest first, for concrete evaluation. -/
def sixReceipts : List Receipt :=
  [rcpt "m1" 1 none, rcpt "m2" 2 none, rcpt "m3" 3 none,
   rcpt "m4" 4 none, rcpt "m5" 5 none, rcpt "m6" 6 none]

/-- Two sample records for the short-input case. -/
def twoReceipts : List Receipt := [rcpt "m1" 1 none, rcpt "m2" 2 none]

/-- Witness for C6: instantiation at a 6-record list and a 2-record list. -/
theorem chartData_spec_witness :
    (chartData sixReceipts).length = 5 ∧
    (chartData sixReceipts)[0]? =
      (sixReceipts[4]?).map (fun r => (r.merchant, r.amount)) ∧
    chartData twoReceipts = twoReceipts.reverse.map fun r => (r.merchant, r.amount) :=
  ⟨((chartData_spec sixReceipts).1 (by decide)).1,
   ((chartData_spec sixReceipts).1 (by decide)).2 0 (by decide),
   (chartData_spec twoReceipts).2 (by decide)⟩

/-! ## Extraction service client (`src/services/gemini.ts`) -/

/-- The outcome of `await ai.models.generateContent(...)`: either the call
throws (network error, timeout, a response the API layer rejects — anything
the `catch` block handles), or it returns a response whose `.text` is
`undefined` (`none`) or a string. -/
inductive GenerateOutcome where
  | thrown : String → GenerateOutcome
  | ok : Option String → GenerateOutcome
deriving Repr, DecidableEq

/-- `extractReceiptData` from `src/services/gemini.ts` with the host
primitive abstracted: `jsonParse s` models `JSON.parse(s)` read at type
`ExtractedReceipt`, returning `none` exactly when `JSON.parse` would throw
on malformed JSON.  The whole body sits in `try/catch` returning `null` from
the catch, so any throw yields `none`; `if (!text) return null` sends both
an `undefined` and an empty (falsy) response text to `null`. -/
def extractReceiptData (jsonParse : String → Option ExtractedReceipt) :
    GenerateOutcome → Option ExtractedReceipt
  | .thrown _ => none
  | .ok none => none
  | .ok (some text) => if text = "" then none else jsonParse text

/-- **C9.** `extractReceiptData` encodes every failure (a thrown call, a
missing response text, an empty response body, malformed JSON) as the
sentinel `none` and never raises — it is a total function into
`Option ExtractedReceipt`; on success it returns the parsed object. -/
theorem extractReceiptData_total (jsonParse : String → Option ExtractedReceipt)
    (e t : String) :
    extractReceiptData jsonParse (.thrown e) = none ∧
    extractReceiptData jsonParse (.ok none) = none ∧
    extractReceiptData jsonParse (.ok (some "")) = none ∧
    (jsonParse t = none → extractReceiptData jsonParse (.ok (some t)) = none) ∧
    (∀ x, jsonParse t = some x → t ≠ "" →
      extractReceiptData jsonParse (.ok (some t)) = some x) := by
  refine ⟨rfl, rfl, rfl, ?_, ?_⟩
  · intro h
    by_cases ht : t = "" <;> simp [extractReceiptData, ht, h]
  · intro x hx ht
    simp [extractReceiptData, ht, hx]

/-- A concrete extraction result (the spec's Cafe Luna scenario). -/
def cafeLuna : ExtractedReceipt :=
  { merchant := "Cafe Luna", date := "2024-03-01", amount := 85 / 2,
    tax := none, currency := "USD", category := "Food & Drinks" }

/-- A concrete JSON decoder for witnesses: decodes the text `ok`, throws on
everything else. -/
def jsonParseW : String → Option ExtractedReceipt :=
  fun s => if s = "ok" then some cafeLuna else none

/-- Witness for C9: a malformed body yields `none`, a well-formed body yields
the parsed object. -/
theorem extractReceiptData_total_witness :
    extractReceiptData jsonParseW (.ok (some "bad")) = none ∧
    extractReceiptData jsonParseW (.ok (some "ok")) = some cafeLuna :=
  ⟨(extractReceiptData_total jsonParseW "err" "bad").2.2.2.1 rfl,
   (extractReceiptData_total jsonParseW "err" "ok").2.2.2.2 cafeLuna rfl (by decide)⟩

/-! ## Numeric form-field edits (C3) -/

/-- JavaScript `x || 0` on a number: NaN (`none`) and `0` are falsy and give
the default `0`; any other number passes through. -/
def jsNumOrZero : Option ℚ → ℚ
  | none => 0
  | some q => if q = 0 then 0 else q

/-- The amount input (`App.tsx` line 413):
`onChange={e => setFormData({ ...formData, amount: parseFloat(e.target.value) })}`.
`pf` models the host `parseFloat`, returning `none` (NaN) when the string
does not parse. -/
def editAmount (pf : String → Option ℚ) (f : FormState) (s : String) : FormState :=
  { f with amount := pf s }

/-- The tax input (`App.tsx` line 429):
`onChange={e => setFormData({ ...formData, tax: parseFloat(e.target.value) || 0 })}`. -/
def editTax (pf : String → Option ℚ) (f : FormState) (s : String) : FormState :=
  { f with tax := some (jsNumOrZero (pf s)) }

/-- A concrete fragment of the host `parseFloat` for evaluation: the empty
string does not parse (`parseFloat('') = NaN` in JavaScript); any other
input is read as the number 1. -/
def parseFloatW : String → Option ℚ :=
  fun s => if s = "" then none else some 1

/-- A concrete form to edit. -/
def form0 : FormState := defaultForm "2024-03-01"

/-- **C3 counterexample.** Editing the amount field with the empty string —
which fails to parse (`parseFloat('') = NaN`) — stores NaN (`none`) in the
form, not the claimed coercion to `0`. -/
theorem editAmount_nan_counterexample :
    (editAmount parseFloatW form0 "").amount = none ∧
    (editAmount parseFloatW form0 "").amount ≠ some 0 :=
  ⟨rfl, by decide⟩

/-- **C3 amended.** Only the tax edit coerces a failed parse to `0`
(`parseFloat(v) || 0`); the amount edit stores the raw `parseFloat` result,
which is NaN (`none`) when the input does not parse.  Neither handler
raises, and a successful parse is stored unchanged by both. -/
theorem edit_handlers_amended (pf : String → Option ℚ) (f : FormState) (s : String) :
    (pf s = none → (editTax pf f s).tax = some 0 ∧ (editAmount pf f s).amount = none) ∧
    (∀ q, pf s = some q →
      (editTax pf f s).tax = some q ∧ (editAmount pf f s).amount = some q) := by
  constructor
  · intro h
    exact ⟨by simp [editTax, h, jsNumOrZero], by simp [editAmount, h]⟩
  · intro q hq
    refine ⟨?_, by simp [editAmount, hq]⟩
    simp only [editTax, hq, jsNumOrZero]
    split_ifs with h
    · simp [h]
    · rfl

/-- Witness for C3 (amended): an unparsable tax edit yields tax `0`; a
parsable amount edit stores the parsed value. -/
theorem edit_handlers_amended_witness :
    (editTax parseFloatW form0 "").tax = some 0 ∧
    (editAmount parseFloatW form0 "x").amount = some 1 :=
  ⟨((edit_handlers_amended parseFloatW form0 "").1 rfl).1,
   ((edit_handlers_amended parseFloatW form0 "x").2 1 rfl).2⟩

/-! ## Capture session state machine (C2) -/

/-- The scan held in `currentScan`: the captured image and the extraction
result (null on extraction failure). -/
structure Scan where
  image : String
  data : Option ExtractedReceipt
deriving Repr, DecidableEq

/-- The `App` component state read and written by the workflow transitions
(`src/App.tsx` lines 53-56): `state`, `currentScan`, `isScanning`.  The
`receipts` cache and the cosmetic `progress` counter are not touched by any
transition a claim refers to. -/
structure AppModel where
  state : AppState
  currentScan : Option Scan
  isScanning : Bool
deriving Repr, DecidableEq

/-- Workflow events, one per handler in `src/App.tsx`.  `extractionDone` is
the continuation of `captureImage` after `await extractReceiptData(...)` and
the 500 ms settling `setTimeout`: it runs whenever the in-flight call
resolves, whatever happened in between. -/
inductive Event where
  | addReceipt
  | closeScanner
  | capture (image : String)
  | extractionDone (image : String) (result : Option ExtractedReceipt)
  | retake
  | confirmSaved
deriving Repr, DecidableEq

/-- One transition of the App component, read off the handlers:
* `addReceipt` — `onAdd={() => { setState('SCANNING'); startCamera(); }}`;
* `closeScanner` — `onClose={() => { setState('LIST'); stopCamera(); }}`;
* `capture` — the synchronous part of `captureImage`: `setIsScanning(true)`
  and issuing the extraction call;
* `extractionDone image r` — the `setTimeout` callback of `captureImage`:
  `setCurrentScan({ image, data: extracted }); setIsScanning(false);
  setState('REVIEW_DETAIL');`, executed unconditionally on resolution with
  no check of the current state;
* `retake` — `handleRetake`: clear the scan, back to `SCANNING`;
* `confirmSaved` — the `res.ok` path of `saveReceipt`: `setState('LIST')`. -/
def step (m : AppModel) : Event → AppModel
  | .addReceipt => { m with state := .SCANNING }
  | .closeScanner => { m with state := .LIST }
  | .capture _ => { m with isScanning := true }
  | .extractionDone image r =>
      { state := .REVIEW_DETAIL, currentScan := some ⟨image, r⟩, isScanning := false }
  | .retake => { m with currentScan := none, state := .SCANNING }
  | .confirmSaved => { m with state := .LIST }

/-- Run a sequence of events from a state. -/
def run (m : AppModel) (es : List Event) : AppModel := es.foldl step m

/-- The initial App state: `useState<AppState>('LIST')`, no scan. -/
def initApp : AppModel := { state := .LIST, currentScan := none, isScanning := false }

/-- **C2.** Failing execution: the user starts a capture, the extraction call
goes in flight, the user closes the scanner (`SCANNING → LIST`), and only
then the call resolves.  The resolution callback carries no stale-response
guard, so the machine moves to `REVIEW_DETAIL` and installs the stale result
as the review seed — whereas the claim requires it to stay out of
`REVIEW_DETAIL` and discard the result. -/
theorem stale_extraction_applied :
    (run initApp
        [.addReceipt, .capture "img", .closeScanner,
         .extractionDone "img" (some cafeLuna)]).state = .REVIEW_DETAIL ∧
    (run initApp
        [.addReceipt, .capture "img", .closeScanner,
         .extractionDone "img" (some cafeLuna)]).currentScan =
      some ⟨"img", some cafeLuna⟩ :=
  ⟨rfl, rfl⟩

/-! ## Persistence gateway (Express server, SQLite `receipts` table) -/

/-- A field of the JSON body as the Express handler sees it after
`const { merchant, … } = req.body`: the property can be missing from the
object (destructuring yields `undefined`), an explicit JSON `null`, or a
value.  The distinction matters at the driver: better-sqlite3 binds
numbers, strings, bigints, buffers and `null`, but throws a `TypeError`
when asked to bind `undefined`. -/
inductive BodyField (α : Type) where
  | absent
  | jnull
  | val : α → BodyField α
deriving Repr, DecidableEq

/-- `true` when the field carries an actual value (present and non-null). -/
def BodyField.isVal {α : Type} : BodyField α → Bool
  | .val _ => true
  | _ => false

/-- `true` when better-sqlite3 can bind the field: a value or an explicit
`null`, but not an absent property (binding `undefined` throws). -/
def BodyField.bindable {α : Type} : BodyField α → Bool
  | .absent => false
  | _ => true

/-- Bind a nullable column's parameter: an absent property throws
(`none` = the bind fails), an explicit `null` binds SQL NULL, a value binds
itself. -/
def bindNullable {α : Type} : BodyField α → Option (Option α)
  | .absent => none
  | .jnull => some none
  | .val a => some (some a)

/-- JavaScript `x || d` on a string: `undefined`, `null` and the empty
string are falsy and give the default. -/
def jsStrOr (v : BodyField String) (d : String) : String :=
  match v with
  | .absent => d
  | .jnull => d
  | .val s => if s = "" then d else s

/-- The `POST /api/receipts` request body as destructured by the server:
`const { merchant, date, amount, tax, currency, category, image_url } =
req.body`. -/
structure PostBody where
  merchant : BodyField String
  date : BodyField String
  amount : BodyField ℚ
  tax : BodyField ℚ
  currency : BodyField String
  category : BodyField String
  image_url : BodyField String
deriving Repr, DecidableEq

/-- A row of the SQLite `receipts` table. -/
structure Row where
  id : Nat
  merchant : String
  date : String
  amount : ℚ
  tax : Option ℚ
  currency : String
  category : String
  image_url : Option String
deriving Repr, DecidableEq

/-- The `POST /api/receipts` handler:
`INSERT INTO receipts (merchant, date, amount, tax, currency, category,
image_url) VALUES (?, ?, ?, ?, ?, ?, ?)` bound to the destructured body
fields with `currency || 'USD'`, the whole call in `try/catch` answering
500 from the catch.  Two error sources feed that catch:
* better-sqlite3 throws a `TypeError` when a bound parameter is
  `undefined`, so an absent `merchant`, `date`, `amount`, `tax`, `category`
  or `image_url` is rejected (`currency` is exempt: `undefined || 'USD'`
  is `'USD'`);
* SQLite rejects `null` in the `NOT NULL` columns `merchant`, `date`,
  `amount`, `category` (`currency` can no longer be null after the
  `|| 'USD'` fallback; `tax` and `image_url` are nullable and an explicit
  `null` binds SQL NULL).
`none` is the rejected (HTTP 500) outcome, with nothing persisted. -/
def createReceipt (nextId : Nat) (b : PostBody) : Option Row :=
  match b.merchant, b.date, b.amount, b.category,
        bindNullable b.tax, bindNullable b.image_url with
  | .val m, .val d, .val a, .val c, some t, some img =>
      some { id := nextId, merchant := m, date := d, amount := a, tax := t,
             currency := jsStrOr b.currency "USD", category := c,
             image_url := img }
  | _, _, _, _, _, _ => none

/-- A create body with no currency field (its optional columns are explicit
nulls so the driver can bind them). -/
def bodyNoCurrency : PostBody :=
  { merchant := .val "Cafe Luna", date := .val "2024-03-01", amount := .val 10,
    tax := .jnull, currency := .absent, category := .val "Other",
    image_url := .jnull }

/-- The row the server persists for `bodyNoCurrency`. -/
def rowNoCurrency : Row :=
  { id := 1, merchant := "Cafe Luna", date := "2024-03-01", amount := 10,
    tax := none, currency := "USD", category := "Other", image_url := none }

/-- **C4 counterexample.** A create call with the currency field absent
persists currency `USD`, not the claimed `INR`. -/
theorem create_currency_counterexample :
    createReceipt 1 bodyNoCurrency = some rowNoCurrency ∧
    rowNoCurrency.currency ≠ "INR" :=
  ⟨rfl, by decide⟩

/-- **C4 amended.** When the currency field is absent from a create body the
server accepts, the persisted row's currency is the fallback code `USD`. -/
theorem create_currency_fallback (nextId : Nat) (b : PostBody) (r : Row)
    (hc : b.currency = .absent) (h : createReceipt nextId b = some r) :
    r.currency = "USD" := by
  unfold createReceipt at h
  split at h
  · cases h
    simp [jsStrOr, hc]
  · exact Option.noConfusion h

/-- Witness for C4 (amended): the concrete currency-free body persists with
currency `USD`. -/
theorem create_currency_fallback_witness : rowNoCurrency.currency = "USD" :=
  create_currency_fallback 1 bodyNoCurrency rowNoCurrency rfl rfl

/-- A create body violating every record invariant: empty merchant, negative
amount, tax exceeding the amount. -/
def badBody : PostBody :=
  { merchant := .val "", date := .val "2024-03-01", amount := .val (-5),
    tax := .val 10, currency := .val "USD", category := .val "Other",
    image_url := .jnull }

/-- The row the server persists for `badBody`. -/
def badRow : Row :=
  { id := 1, merchant := "", date := "2024-03-01", amount := -5,
    tax := some 10, currency := "USD", category := "Other", image_url := none }

/-- **C5 counterexample.** The create handler accepts and persists a record
with empty merchant, negative amount, and tax greater than the amount — the
claimed invariants are not enforced. -/
theorem create_invariants_counterexample :
    createReceipt 1 badBody = some badRow ∧
    badRow.merchant = "" ∧ badRow.amount < 0 ∧
    badRow.tax = some 10 ∧ badRow.amount < 10 :=
  ⟨rfl, rfl, by norm_num [badRow], rfl, by norm_num [badRow]⟩

/-- **C5 amended.** A create call succeeds exactly when the `NOT NULL`
columns (`merchant`, `date`, `amount`, `category`) carry present non-null
values and each of `tax` and `image_url` is bindable — a present value or
an explicit JSON null; an absent optional field makes the driver's bind of
`undefined` throw, a 500.  The persisted row copies the accepted fields
verbatim (currency defaulted when absent, null or empty); no invariant
beyond that — not `amount ≥ 0`, not `tax ≤ amount`, not merchant
non-emptiness — is enforced. -/
theorem create_presence_only (nextId : Nat) (b : PostBody) :
    ((createReceipt nextId b).isSome ↔
      b.merchant.isVal ∧ b.date.isVal ∧ b.amount.isVal ∧ b.category.isVal ∧
      b.tax.bindable ∧ b.image_url.bindable) ∧
    ∀ r, createReceipt nextId b = some r →
      b.merchant = .val r.merchant ∧ b.date = .val r.date ∧
      b.amount = .val r.amount ∧ b.category = .val r.category ∧
      bindNullable b.tax = some r.tax ∧ bindNullable b.image_url = some r.image_url ∧
      r.currency = jsStrOr b.currency "USD" ∧ r.id = nextId := by
  cases hm : b.merchant <;> cases hd : b.date <;> cases ha : b.amount <;>
    cases hc : b.category <;> cases ht : b.tax <;> cases hi : b.image_url <;>
      simp_all [createReceipt, bindNullable, BodyField.isVal, BodyField.bindable]

/-- Witness for C5 (amended): the invariant-violating body is accepted and
its fields are copied verbatim. -/
theorem create_presence_only_witness :
    (createReceipt 1 badBody).isSome ∧ badBody.amount = .val badRow.amount :=
  ⟨(create_presence_only 1 badBody).1.mpr (by decide),
   ((create_presence_only 1 badBody).2 badRow rfl).2.2.1⟩

/-! ## List ordering (C8) -/

/-- `ORDER BY date DESC`: row `a` may precede row `b` when
`b.date ≤ a.date` (ISO-8601 dates stored as TEXT compare lexicographically,
so text order is chronological order). -/
def dateGe (a b : Row) : Prop := b.date ≤ a.date

instance : DecidableRel dateGe :=
  fun a b => inferInstanceAs (Decidable (b.date ≤ a.date))

instance : IsTotal Row dateGe := ⟨fun a b => le_total b.date a.date⟩

instance : IsTrans Row dateGe := ⟨fun _ _ _ hab hbc => le_trans hbc hab⟩

/-- The `GET /api/receipts` handler: `SELECT * FROM receipts ORDER BY date
DESC`.  The stored rows are kept in insertion (rowid) order and the query is
modelled as a stable sort of that sequence by date descending.  The query
names no secondary sort key, so nothing in it orders rows with equal
dates. -/
def listReceipts (rows : List Row) : List Row := List.insertionSort dateGe rows

/-- First inserted of two rows sharing a date. -/
def rowOld : Row :=
  { id := 1, merchant := "A", date := "2024-03-01", amount := 1, tax := none,
    currency := "USD", category := "Other", image_url := none }

/-- Second inserted of two rows sharing a date. -/
def rowNew : Row :=
  { id := 2, merchant := "B", date := "2024-03-01", amount := 2, tax := none,
    currency := "USD", category := "Other", image_url := none }

/-- **C8 counterexample.** Two rows with equal dates come back in insertion
order (oldest inserted first), not in the claimed reverse insertion order
(newest inserted first): the query has no tie-break. -/
theorem list_tie_order_counterexample :
    listReceipts [rowOld, rowNew] = [rowOld, rowNew] ∧
    listReceipts [rowOld, rowNew] ≠ [rowNew, rowOld] := by
  have hge : dateGe rowOld rowNew := le_refl _
  have hstep : listReceipts [rowOld, rowNew] = [rowOld, rowNew] := by
    simp [listReceipts, List.insertionSort, List.orderedInsert, hge]
  refine ⟨hstep, ?_⟩
  rw [hstep]
  intro h
  have heq : rowOld = rowNew := ((List.cons.injEq _ _ _ _).mp h).1
  have hm : rowOld.merchant = rowNew.merchant := congrArg Row.merchant heq
  exact absurd hm (by decide)

/-- **C8 amended.** `listReceipts` returns a permutation of the stored rows
sorted by date descending; the order of rows with equal dates is whatever
the sort produces (under the stable model: insertion order, oldest first) —
newest-inserted-first is not guaranteed. -/
theorem listReceipts_sorted (rows : List Row) :
    List.Sorted dateGe (listReceipts rows) ∧ List.Perm (listReceipts rows) rows :=
  ⟨List.sorted_insertionSort dateGe rows, List.perm_insertionSort dateGe rows⟩

end ReceiptScan
